import Mathlib

/-!
Shallow embedding of the Lila MCP relationship-modeling servers.

The repository ships two FastMCP servers over the same surface:
* `lila_mcp_server.py` (`LilaMCPServer`) — graph-backed: every resource/tool
  runs a parameterized Cypher query against Neo4j; embedded here in the
  `Lila` namespace.  The Neo4j state is modelled as an explicit list of
  persona nodes and undirected relationship edges; Cypher null values are
  `Option`, Cypher `CASE`/`COALESCE` are translated literally.
* `simple_lila_mcp_server.py` (`SimpleLilaMCPServer`) — in-memory fallback:
  tools mutate `mock_personas` / `mock_relationships` / `mock_interactions`
  dictionaries; embedded in the `SimpleLila` namespace with Python dicts as
  association lists (insertion order preserved, first-match lookup).

Python floats are modelled as `ℚ` (all operations used by the code —
addition, halving, min/max clamping — are exact on the values at issue),
timestamps (`datetime.now()` / Cypher `datetime()`) as a `now : ℕ`
parameter, and Python exceptions as an explicit `Outcome.raised`
constructor so that the presence or absence of a `try/except` around each
handler body is part of the model.
-/

/-- Result of one resource/tool invocation as seen by the external caller:
a normal document, a structured `{"error": ...}` document, or an uncaught
Python exception escaping the handler. -/
inductive Outcome (α : Type) where
  | ok (doc : α)
  | errorDoc (msg : String)
  | raised (msg : String)
deriving DecidableEq

/-- Python `min(a, b)`. -/
def pyMin (a b : ℚ) : ℚ := if a ≤ b then a else b

/-- Python `max(a, b)`. -/
def pyMax (a b : ℚ) : ℚ := if b ≤ a then a else b

/-- Python `max(0, min(10, x))` — the fallback server's clamp expression. -/
def clamp (x : ℚ) : ℚ := pyMax 0 (pyMin 10 x)

/-- Python `s.lower()` (per-character lowering). -/
def pyLower (s : String) : String := ⟨s.data.map Char.toLower⟩

/-- Python falsy-coalescing `value or default` on an optional float:
`None` and `0.0` are falsy, everything else is returned unchanged. -/
def pyOrQ (v : Option ℚ) (d : ℚ) : ℚ :=
  match v with
  | none => d
  | some x => if x = 0 then d else x

/-- Python falsy-coalescing `value or default` on an optional int. -/
def pyOrZ (v : Option ℤ) (d : ℤ) : ℤ :=
  match v with
  | none => d
  | some x => if x = 0 then d else x

/-- Python falsy-coalescing `value or default` on an optional string
(`None` and `""` are falsy). -/
def pyOrS (v : Option String) (d : String) : String :=
  match v with
  | none => d
  | some x => if x = "" then d else x

/-- Accumulate the value of a decimal digit string; any non-digit character
makes the whole parse fail, as Python `int(...)` raises `ValueError`. -/
def parseDigits : List Char → ℕ → Option ℕ
  | [], acc => some acc
  | c :: cs, acc =>
      if c.isDigit then parseDigits cs (acc * 10 + (c.toNat - 48)) else none

/-- Python `int(s)` on a decimal string with an optional sign; `none` models
the `ValueError` raised on a malformed literal. -/
def pyInt (s : String) : Option ℤ :=
  match s.toList with
  | [] => none
  | c :: cs =>
      if c = '-' then
        match cs with
        | [] => none
        | _ :: _ => (parseDigits cs 0).map (fun n => -(n : ℤ))
      else if c = '+' then
        match cs with
        | [] => none
        | _ :: _ => (parseDigits cs 0).map (fun n => (n : ℤ))
      else (parseDigits (c :: cs) 0).map (fun n => (n : ℤ))

/-- Does `hay` start with `needle`? -/
def startsW : List Char → List Char → Bool
  | [], _ => true
  | _ :: _, [] => false
  | a :: as, b :: bs => (a == b) && startsW as bs

/-- Substring search over character lists. -/
def hasSub (needle : List Char) : List Char → Bool
  | [] => needle.isEmpty
  | c :: rest => startsW needle (c :: rest) || hasSub needle rest

/-- Python `needle in hay` substring membership on strings. -/
def pyIn (needle hay : String) : Bool := hasSub needle.toList hay.toList

/-- Python slice `l[:k]`: a negative stop counts from the end. -/
def pySliceTo {α : Type} (l : List α) (k : ℤ) : List α :=
  if k < 0 then l.take ((l.length + k).toNat) else l.take k.toNat

/-- Python `"%03d" % n` zero-padding used for fallback interaction ids. -/
def pad3 (n : ℕ) : String :=
  if n < 10 then "00" ++ toString n
  else if n < 100 then "0" ++ toString n
  else toString n

/-- Association-list model of a Python `dict` lookup. -/
def dget {α β : Type} [DecidableEq α] : List (α × β) → α → Option β
  | [], _ => none
  | e :: m, k => if e.1 = k then some e.2 else dget m k

/-- Association-list model of `d[k] = v`: overwrite an existing key in
place, otherwise append (Python dicts keep insertion order and hold each
key at most once). -/
def dset {α β : Type} [DecidableEq α] : List (α × β) → α → β → List (α × β)
  | [], k, v => [(k, v)]
  | e :: m, k, v => if e.1 = k then (k, v) :: m else e :: dset m k v

namespace Lila

/-- A `PersonaAgent` node as stored in Neo4j; every property may be null. -/
structure GraphPersona where
  persona_id : String
  name : Option String
  age : Option ℤ
  role : Option String
  description : Option String
  attachment_style : Option String
  openness : Option ℚ
  conscientiousness : Option ℚ
  extraversion : Option ℚ
  agreeableness : Option ℚ
  neuroticism : Option ℚ
  trust_level : Option ℚ
  communication_style : Option String
deriving DecidableEq

/-- A `RELATIONSHIP` edge's properties as stored in Neo4j. -/
structure GraphRel where
  trust_level : Option ℚ
  intimacy_level : Option ℚ
  relationship_strength : Option ℚ
  interaction_count : Option ℤ
  relationship_type : Option String
  emotional_valence : Option ℚ
  last_interaction : Option ℕ
  created_at : Option ℕ
  updated_at : Option ℕ
deriving DecidableEq

/-- A relationship edge between the personas with ids `p1` and `p2`
(stored directed, always matched undirected by the Cypher patterns). -/
structure GraphEdge where
  p1 : String
  p2 : String
  rel : GraphRel
deriving DecidableEq

/-- The Neo4j database contents the server's queries range over. -/
structure GraphState where
  personas : List GraphPersona
  edges : List GraphEdge
deriving DecidableEq

/-- Does the edge match the undirected Cypher pattern
`(p1 {persona_id: a})-[r]-(p2 {persona_id: b})`? -/
def edgeMatches (a b : String) (e : GraphEdge) : Bool :=
  (e.p1 == a && e.p2 == b) || (e.p1 == b && e.p2 == a)

/-- Look up a persona's `name` property by persona id. -/
def nameOf (st : GraphState) (pid : String) : Option String :=
  (st.personas.find? fun p => p.persona_id == pid).bind (·.name)

/-- Cypher clamp used in `update_relationship_metrics`:
`CASE WHEN v + d > 10.0 THEN 10.0 WHEN v + d < 0.0 THEN 0.0 ELSE v + d END`.
A null metric stays null (`null + d` is null and every `WHEN` test on null
falls through to `ELSE`). -/
def cypherClamp (v : Option ℚ) (d : ℚ) : Option ℚ :=
  v.map fun x => if x + d > 10 then (10 : ℚ) else if x + d < 0 then 0 else x + d

/-- The `SET` clause of `update_relationship_metrics` applied to one
matched relationship. -/
def applyMetricDeltas (r : GraphRel) (dt di ds : ℚ) (now : ℕ) : GraphRel :=
  { r with
    trust_level := cypherClamp r.trust_level dt
    intimacy_level := cypherClamp r.intimacy_level di
    relationship_strength := cypherClamp r.relationship_strength ds
    updated_at := some now }

/-- The `SET` clause of `record_interaction` applied to one matched
relationship: `last_interaction = datetime()`,
`interaction_count = COALESCE(interaction_count, 0) + 1`,
`emotional_valence = ($ev + COALESCE(emotional_valence, 0.0)) / 2`. -/
def applyInteraction (r : GraphRel) (ev : ℚ) (now : ℕ) : GraphRel :=
  { r with
    last_interaction := some now
    interaction_count := some (r.interaction_count.getD 0 + 1)
    emotional_valence := some ((ev + r.emotional_valence.getD 0) / 2) }

/-- Success document of the `update_relationship_metrics` tool. -/
structure UpdateDoc where
  participants : String × String
  name1 : Option String
  name2 : Option String
  trust_level : ℚ
  intimacy_level : ℚ
  relationship_strength : ℚ
  changes : ℚ × ℚ × ℚ
deriving DecidableEq

/-- Tool `update_relationship_metrics`: clamp-update the three metrics of
every relationship between the two personas; error (state unchanged) when
no relationship matches.  The returned document reports the post-update
values of the first matched relationship; a null metric would crash the
`:.2f` format inside the `try`, yielding an error document (the `SET`
has already run by then). -/
def update_relationship_metrics (st : GraphState) (p1 p2 : String)
    (dt di ds : ℚ) (now : ℕ) : Outcome UpdateDoc × GraphState :=
  match st.edges.find? (edgeMatches p1 p2) with
  | none =>
      (.errorDoc ("No relationship found between " ++ p1 ++ " and " ++ p2), st)
  | some e0 =>
      let updatedEdges := st.edges.map fun e =>
        if edgeMatches p1 p2 e then { e with rel := applyMetricDeltas e.rel dt di ds now } else e
      let st' : GraphState := { st with edges := updatedEdges }
      let r := applyMetricDeltas e0.rel dt di ds now
      match r.trust_level, r.intimacy_level, r.relationship_strength with
      | some t, some i, some s =>
          (.ok ⟨(p1, p2), nameOf st p1, nameOf st p2, t, i, s, (dt, di, ds)⟩, st')
      | _, _, _ =>
          (.errorDoc "Error updating relationship metrics: unsupported format string", st')

/-- Success document of the `record_interaction` tool. -/
structure RecordDoc where
  sender_id : String
  recipient_id : String
  content_length : ℕ
  emotional_valence : ℚ
  relationship_impact : ℚ
deriving DecidableEq

/-- Tool `record_interaction`: bump `interaction_count`, stamp
`last_interaction`, and blend `emotional_valence` as a two-term average on
every relationship between sender and recipient; reports success even when
no relationship matched (the Cypher `SET` then touches zero rows). -/
def record_interaction (st : GraphState) (sender recipient content : String)
    (ev ri : ℚ) (now : ℕ) : Outcome RecordDoc × GraphState :=
  let updatedEdges := st.edges.map fun e =>
    if edgeMatches sender recipient e then { e with rel := applyInteraction e.rel ev now } else e
  (.ok ⟨sender, recipient, content.length, ev, ri⟩, { st with edges := updatedEdges })

/-- The fixed `compatibility_matrix` dictionary of
`analyze_persona_compatibility`, keyed by an ordered pair of attachment
styles. -/
def compatibility_matrix (s1 s2 : String) : Option (String × String) :=
  if s1 = "secure" ∧ s2 = "secure" then
    some ("High", "Both partners provide stability and emotional availability")
  else if s1 = "secure" ∧ s2 = "anxious" then
    some ("Good", "Secure partner can provide reassurance to anxious partner")
  else if s1 = "secure" ∧ s2 = "avoidant" then
    some ("Moderate", "Secure partner may help avoidant partner open up gradually")
  else if s1 = "anxious" ∧ s2 = "anxious" then
    some ("Challenging", "Both partners may escalate emotional intensity")
  else if s1 = "anxious" ∧ s2 = "avoidant" then
    some ("Difficult", "Classic pursue-withdraw dynamic may develop")
  else if s1 = "avoidant" ∧ s2 = "avoidant" then
    some ("Low", "Both partners may avoid emotional intimacy")
  else none

/-- Lookup `matrix.get((s1, s2)) or matrix.get((s2, s1)) or ("Unknown", ...)`
(the stored tuples are non-empty, hence truthy, so Python `or` chains as
`Option.orElse`). -/
def compatibility (s1 s2 : String) : String × String :=
  ((compatibility_matrix s1 s2).orElse fun _ => compatibility_matrix s2 s1).getD
    ("Unknown", "Attachment style combination not recognized")

/-- Document of the `analyze_persona_compatibility` tool. -/
structure CompatDoc where
  persona1_id : String
  persona2_id : String
  style1 : Option String
  style2 : Option String
  relationship_type : String
  compatibility_level : String
  analysis : String
deriving DecidableEq

/-- Tool `analyze_persona_compatibility`: fetch both personas' attachment
styles and consult the fixed table (a null style can never equal a table
key, so it falls through to the Unknown pair). -/
def analyze_persona_compatibility (st : GraphState) (p1 p2 : String)
    (relationship_type : String) : Outcome CompatDoc :=
  match st.personas.find? (fun p => p.persona_id == p1),
        st.personas.find? (fun p => p.persona_id == p2) with
  | some q1, some q2 =>
      let c :=
        match q1.attachment_style, q2.attachment_style with
        | some a, some b => compatibility a b
        | _, _ => ("Unknown", "Attachment style combination not recognized")
      .ok ⟨p1, p2, q1.attachment_style, q2.attachment_style, relationship_type, c.1, c.2⟩
  | _, _ => .errorDoc ("Could not find both personas: " ++ p1 ++ ", " ++ p2)

/-- The `attachment_strategies` dictionary of
`autonomous_strategy_selection`. -/
def attachment_strategies (style : String) : Option (List String) :=
  if style = "secure" then
    some ["emotional_bonding", "vulnerable_disclosure", "supportive_listening", "trust_building"]
  else if style = "anxious" then
    some ["reassurance_seeking", "emotional_validation", "secure_bonding", "safety_creation"]
  else if style = "avoidant" then
    some ["autonomous_connection", "thoughtful_presence", "respectful_distance", "gradual_opening"]
  else if style = "exploratory" then
    some ["growth_oriented_support", "playful_engagement", "curious_exploration", "authentic_expression"]
  else none

/-- Python `attachment_strategies.get(style, attachment_strategies["secure"])`. -/
def available_strategies (style : String) : List String :=
  (attachment_strategies style).getD
    ["emotional_bonding", "vulnerable_disclosure", "supportive_listening", "trust_building"]

/-- The context/goal-driven strategy choice of
`autonomous_strategy_selection` (graph server): case-insensitive substring
tests on the lowered context and goals, first matching rule wins, else the
first available strategy for the style. -/
def selected_strategy (conversation_context active_goals attachment_style : String) : String :=
  let context_lower := pyLower conversation_context
  if pyIn "first" context_lower || pyIn "new" context_lower then
    if attachment_style = "anxious" then "reassurance_seeking"
    else if attachment_style = "avoidant" then "thoughtful_presence"
    else "emotional_bonding"
  else if pyIn "deep" context_lower || pyIn "intimate" context_lower then
    if attachment_style ≠ "avoidant" then "vulnerable_disclosure" else "gradual_opening"
  else if pyIn "trust" (pyLower active_goals) then "trust_building"
  else if pyIn "vulnerability" (pyLower active_goals) then "vulnerable_disclosure"
  else (available_strategies attachment_style).headD ""

/-- Document of the graph server's `autonomous_strategy_selection` tool. -/
structure StrategyDoc where
  persona_id : String
  strategy : String
  attachment_style : String
  context : String
  available : List String
deriving DecidableEq

/-- Tool `autonomous_strategy_selection` (graph server): pure computation,
no store access, entire body inside `try`. -/
def autonomous_strategy_selection (persona_id conversation_context
    _situation_assessment active_goals attachment_style : String) : Outcome StrategyDoc :=
  .ok ⟨persona_id, selected_strategy conversation_context active_goals attachment_style,
    attachment_style, conversation_context, available_strategies attachment_style⟩

/-- Sort key for `ORDER BY r.updated_at DESC`: Neo4j treats null as larger
than every value, hence nulls come first under `DESC`. -/
def updKey (e : GraphEdge) : WithTop ℕ :=
  match e.rel.updated_at with
  | none => ⊤
  | some n => (n : WithTop ℕ)

/-- One row of the `get_recent_interactions` query: an edge together with
the direction it was traversed in (the undirected pattern
`(p1)-[r]-(p2)` enumerates each relationship once per direction). -/
structure EdgeRow where
  edge : GraphEdge
  reversed : Bool
deriving DecidableEq

/-- Descending `updated_at` order on query rows. -/
def rowDesc (a b : EdgeRow) : Prop := updKey b.edge ≤ updKey a.edge

instance : DecidableRel rowDesc := fun a b =>
  inferInstanceAs (Decidable (updKey b.edge ≤ updKey a.edge))

instance : IsTotal EdgeRow rowDesc :=
  ⟨fun a b => le_total (updKey b.edge) (updKey a.edge)⟩

instance : IsTrans EdgeRow rowDesc :=
  ⟨fun _ _ _ hab hbc => le_trans hbc hab⟩

/-- All rows of `MATCH (p1)-[r]-(p2)` ordered by `r.updated_at DESC`
(every edge appears in both traversal directions). -/
def recentRows (st : GraphState) : List EdgeRow :=
  List.insertionSort rowDesc (st.edges.flatMap fun e => [⟨e, false⟩, ⟨e, true⟩])

/-- Document built for each interaction row of `get_recent_interactions`. -/
structure InteractionRowDoc where
  from_name : Option String
  to_name : Option String
  content : String
  emotional_valence : ℚ
  timestamp : ℕ
deriving DecidableEq

/-- Render one query row: `emotional_valence or 0.0` coalescing and
`str(last_interaction) if last_interaction else datetime.now()`. -/
def rowDoc (st : GraphState) (now : ℕ) (r : EdgeRow) : InteractionRowDoc :=
  let src := if r.reversed then r.edge.p2 else r.edge.p1
  let dst := if r.reversed then r.edge.p1 else r.edge.p2
  ⟨nameOf st src, nameOf st dst,
    "[Relationship interaction of type: " ++
      (r.edge.rel.relationship_type.map toString).getD "None" ++ "]",
    pyOrQ r.edge.rel.emotional_valence 0,
    match r.edge.rel.last_interaction with
    | some t => t
    | none => now⟩

/-- Resource `interactions/recent/{count}` (graph server): the whole body,
including `int(count)`, runs inside `try`, so a malformed count or a
negative Cypher `LIMIT` becomes an error document, never an exception. -/
def get_recent_interactions (st : GraphState) (count : String) (now : ℕ) :
    Outcome (List InteractionRowDoc) :=
  match pyInt count with
  | none => .errorDoc "Error retrieving interactions: invalid literal for int"
  | some k =>
      let count_int : ℤ := min k 50
      if count_int < 0 then
        .errorDoc "Error retrieving interactions: LIMIT must not be negative"
      else
        .ok (((recentRows st).take count_int.toNat).map (rowDoc st now))

/-- Document of `personas/all` for a single persona: missing personality
scalars are replaced by 0.5 via Python `or` coalescing. -/
structure PersonaDoc where
  id : String
  name : Option String
  age : Option ℤ
  role : Option String
  attachment_style : Option String
  openness : ℚ
  conscientiousness : ℚ
  extraversion : ℚ
  agreeableness : ℚ
  neuroticism : ℚ
deriving DecidableEq

/-- Render one persona row of `personas/all`. -/
def personaDoc (p : GraphPersona) : PersonaDoc :=
  ⟨p.persona_id, p.name, p.age, p.role, p.attachment_style,
    pyOrQ p.openness 0.5, pyOrQ p.conscientiousness 0.5, pyOrQ p.extraversion 0.5,
    pyOrQ p.agreeableness 0.5, pyOrQ p.neuroticism 0.5⟩

/-- Sort key for `ORDER BY p.name` (Neo4j sorts null last in ascending
order, i.e. null is largest). -/
def nameKey (p : GraphPersona) : WithTop String :=
  match p.name with
  | none => ⊤
  | some s => (s : WithTop String)

/-- Ascending name order on persona rows. -/
def nameAsc (a b : GraphPersona) : Prop := nameKey a ≤ nameKey b

instance : DecidableRel nameAsc := fun a b =>
  inferInstanceAs (Decidable (nameKey a ≤ nameKey b))

instance : IsTotal GraphPersona nameAsc := ⟨fun a b => le_total (nameKey a) (nameKey b)⟩

instance : IsTrans GraphPersona nameAsc := ⟨fun _ _ _ hab hbc => le_trans hab hbc⟩

/-- Resource `personas/all` (graph server). -/
def get_all_personas (st : GraphState) : Outcome (List PersonaDoc) :=
  .ok ((List.insertionSort nameAsc st.personas).map personaDoc)

/-- Document of `personas/{persona_id}`. -/
structure PersonaFullDoc where
  id : String
  name : Option String
  age : Option ℤ
  role : Option String
  description : Option String
  attachment_style : Option String
  openness : ℚ
  conscientiousness : ℚ
  extraversion : ℚ
  agreeableness : ℚ
  neuroticism : ℚ
  trust_level : ℚ
  communication_style : Option String
deriving DecidableEq

/-- Resource `personas/{persona_id}` (same code in both server files):
personality scalars coalesce to 0.5 and the persona-level `trust_level`
coalesces to 0.5 via Python `or`. -/
def get_persona_by_id (st : GraphState) (persona_id : String) : Outcome PersonaFullDoc :=
  match st.personas.find? (fun p => p.persona_id == persona_id) with
  | none => .errorDoc ("Persona " ++ persona_id ++ " not found")
  | some p =>
      .ok ⟨p.persona_id, p.name, p.age, p.role, p.description, p.attachment_style,
        pyOrQ p.openness 0.5, pyOrQ p.conscientiousness 0.5, pyOrQ p.extraversion 0.5,
        pyOrQ p.agreeableness 0.5, pyOrQ p.neuroticism 0.5,
        pyOrQ p.trust_level 0.5, p.communication_style⟩

/-- Document of `relationships/{persona1_id}/{persona2_id}`. -/
structure RelDoc where
  persona1_id : String
  persona2_id : String
  persona1_name : Option String
  persona2_name : Option String
  trust_level : ℚ
  intimacy_level : ℚ
  relationship_strength : ℚ
  interaction_count : ℤ
  relationship_type : String
  emotional_valence : ℚ
deriving DecidableEq

/-- Resource `relationships/{a}/{b}` (graph server): undirected match with
`LIMIT 1`; the three metrics coalesce to 5.0, the count to 0, the type to
"unknown" and the valence to 0.0 via Python `or`. -/
def get_relationship_by_personas (st : GraphState) (p1 p2 : String) :
    Outcome RelDoc :=
  match st.edges.find? (edgeMatches p1 p2) with
  | none => .errorDoc ("No relationship found between " ++ p1 ++ " and " ++ p2)
  | some e =>
      .ok ⟨p1, p2, nameOf st p1, nameOf st p2,
        pyOrQ e.rel.trust_level 5, pyOrQ e.rel.intimacy_level 5,
        pyOrQ e.rel.relationship_strength 5,
        pyOrZ e.rel.interaction_count 0,
        pyOrS e.rel.relationship_type "unknown",
        pyOrQ e.rel.emotional_valence 0⟩

end Lila

namespace SimpleLila

/-- The five `personality` scalars of a mock persona. -/
structure BigFive where
  openness : ℚ
  conscientiousness : ℚ
  extraversion : ℚ
  agreeableness : ℚ
  neuroticism : ℚ
deriving DecidableEq

/-- An entry of `self.mock_personas`. -/
structure MockPersona where
  id : String
  name : String
  age : ℕ
  role : String
  attachment_style : String
  personality : BigFive
deriving DecidableEq

/-- An entry of `self.mock_relationships`: note it carries only the three
metrics and a `last_updated` stamp — no `interaction_count` and no
`emotional_valence` key exists on fallback relationships.  A relationship
freshly created by `update_relationship_metrics` has no `last_updated`
until the update stamps it, hence the `Option`. -/
structure MockRel where
  trust_level : ℚ
  intimacy_level : ℚ
  relationship_strength : ℚ
  last_updated : Option ℕ
deriving DecidableEq

/-- An entry of `self.mock_interactions`. -/
structure MockInteraction where
  id : String
  sender_id : String
  recipient_id : String
  content : String
  emotional_valence : ℚ
  relationship_impact : ℚ
  timestamp : ℕ
deriving DecidableEq

/-- The in-memory fallback store owned by `SimpleLilaMCPServer`. -/
structure FallbackState where
  mock_personas : List (String × MockPersona)
  mock_relationships : List ((String × String) × MockRel)
  mock_interactions : List MockInteraction
deriving DecidableEq

/-- The demo dataset seeded in `SimpleLilaMCPServer.__init__` (the
construction-time `datetime.now()` stamps are modelled as instant 0). -/
def initState : FallbackState where
  mock_personas :=
    [("lila", ⟨"lila", "Lila", 28, "Psychological Intelligence Agent", "secure",
        ⟨0.8, 0.75, 0.65, 0.85, 0.3⟩⟩),
     ("don", ⟨"don", "Don", 45, "Software Developer", "anxious",
        ⟨0.7, 0.8, 0.4, 0.7, 0.6⟩⟩)]
  mock_relationships := [(("lila", "don"), ⟨7.5, 6.8, 7.2, some 0⟩)]
  mock_interactions :=
    [⟨"int_001", "lila", "don", "How are you feeling about our project collaboration?",
      0.7, 0.3, 0⟩]

/-- Success document of the fallback `update_relationship_metrics` tool. -/
structure FUpdateDoc where
  participants : String × String
  trust_level : ℚ
  intimacy_level : ℚ
  relationship_strength : ℚ
deriving DecidableEq

/-- Tool `update_relationship_metrics` (fallback): resolve the record under
`(p1, p2)`, then `(p2, p1)`; when neither key exists, create a fresh
default record (all three metrics 5.0) under `(p1, p2)`; then clamp-apply
the deltas in place with `max(0, min(10, value + delta))` and stamp
`last_updated`. -/
def update_relationship_metrics (st : FallbackState) (p1 p2 : String)
    (dt di ds : ℚ) (now : ℕ) : Outcome FUpdateDoc × FallbackState :=
  let key := (p1, p2)
  let reverse_key := (p2, p1)
  let resolved : (String × String) × MockRel × FallbackState :=
    match dget st.mock_relationships key with
    | some m => (key, m, st)
    | none =>
        match dget st.mock_relationships reverse_key with
        | some m => (reverse_key, m, st)
        | none =>
            let m : MockRel := ⟨5, 5, 5, none⟩
            (key, m, { st with mock_relationships := dset st.mock_relationships key m })
  let m := resolved.2.1
  let m' : MockRel :=
    ⟨clamp (m.trust_level + dt), clamp (m.intimacy_level + di),
      clamp (m.relationship_strength + ds), some now⟩
  let st' := resolved.2.2
  (.ok ⟨(p1, p2), m'.trust_level, m'.intimacy_level, m'.relationship_strength⟩,
    { st' with mock_relationships := dset st'.mock_relationships resolved.1 m' })

/-- The interaction record built by the fallback `record_interaction`
(`f"int_{len(self.mock_interactions) + 1:03d}"`). -/
def new_interaction (st : FallbackState) (sender recipient content : String)
    (ev ri : ℚ) (now : ℕ) : MockInteraction :=
  ⟨"int_" ++ pad3 (st.mock_interactions.length + 1), sender, recipient, content, ev, ri, now⟩

/-- Tool `record_interaction` (fallback): builds an interaction record and
inserts it at the front of `mock_interactions`; `mock_relationships` is not
consulted or modified at all. -/
def record_interaction (st : FallbackState) (sender recipient content : String)
    (ev ri : ℚ) (now : ℕ) : Outcome Lila.RecordDoc × FallbackState :=
  (.ok ⟨sender, recipient, content.length, ev, ri⟩,
    { st with mock_interactions := new_interaction st sender recipient content ev ri now
        :: st.mock_interactions })

/-- Document of the fallback `relationships/{a}/{b}` resource. -/
structure FRelDoc where
  persona1_id : String
  persona2_id : String
  trust_level : ℚ
  intimacy_level : ℚ
  relationship_strength : ℚ
  last_updated : Option ℕ
deriving DecidableEq

/-- Resource `relationships/{persona1_id}/{persona2_id}` (fallback):
`mock_relationships.get(key) or mock_relationships.get(reverse_key)`
(stored dicts are non-empty, hence truthy, so `or` chains as
`Option.orElse`). -/
def get_relationship_by_personas (st : FallbackState) (p1 p2 : String) :
    Outcome FRelDoc :=
  match (dget st.mock_relationships (p1, p2)).orElse
      (fun _ => dget st.mock_relationships (p2, p1)) with
  | none => .errorDoc ("Relationship between " ++ p1 ++ " and " ++ p2 ++ " not found")
  | some m =>
      .ok ⟨p1, p2, m.trust_level, m.intimacy_level, m.relationship_strength, m.last_updated⟩

/-- Resource `interactions/recent/{count}` (fallback): **no** `try/except`
around the body, so `int(count)` on a malformed string raises out of the
handler; the limit is `min(int(count), len(mock_interactions))` — there is
no cap at 50 here — and the result is the slice `mock_interactions[:limit]`. -/
def get_recent_interactions (st : FallbackState) (count : String) :
    Outcome (List MockInteraction) :=
  match pyInt count with
  | none => .raised "ValueError: invalid literal for int with base 10"
  | some k =>
      let limit : ℤ := min k (st.mock_interactions.length : ℤ)
      .ok (pySliceTo st.mock_interactions limit)

/-- Document of the fallback `autonomous_strategy_selection` tool. -/
structure FStrategyDoc where
  selected_strategy : String
  confidence : ℚ
  attachment_basis : String
deriving DecidableEq

/-- Tool `autonomous_strategy_selection` (fallback): takes no attachment
style and does no context matching — it looks the persona up in
`mock_personas` and returns `balanced_connection` for a secure persona and
`reassurance_seeking` for every other style. -/
def autonomous_strategy_selection (st : FallbackState)
    (persona_id _conversation_context _goals _constraints : String) : Outcome FStrategyDoc :=
  match dget st.mock_personas persona_id with
  | none => .errorDoc ("Persona " ++ persona_id ++ " not found")
  | some p =>
      if p.attachment_style = "secure" then
        .ok ⟨"balanced_connection", 0.85, p.attachment_style⟩
      else
        .ok ⟨"reassurance_seeking", 0.78, p.attachment_style⟩

end SimpleLila

/-- A small Neo4j population mirroring the fallback demo dataset: the two
demo personas and one relationship edge between them. -/
def exGraphState : Lila.GraphState where
  personas :=
    [⟨"lila", some "Lila", some 28, some "Psychological Intelligence Agent", none,
        some "secure", some 0.8, some 0.75, some 0.65, some 0.85, some 0.3, some 0.5,
        some "direct"⟩,
     ⟨"don", some "Don", some 45, some "Software Developer", none,
        some "anxious", some 0.7, some 0.8, some 0.4, some 0.7, some 0.6, some 0.5, none⟩]
  edges :=
    [⟨"lila", "don",
        ⟨some 7.5, some 6.8, some 7.2, some 3, some "romantic", some 0, some 1, some 1, some 1⟩⟩]

/-- The same two personas with no relationship edge at all. -/
def emptyRelGraphState : Lila.GraphState where
  personas := exGraphState.personas
  edges := []

/-- The fallback store holding the same two personas and, likewise, no
relationships and no interactions. -/
def emptyRelFallbackState : SimpleLila.FallbackState where
  mock_personas := SimpleLila.initState.mock_personas
  mock_relationships := []
  mock_interactions := []

/-- A graph population whose stored numeric fields are exactly 0.0,
exercising the falsy-coalescing read paths. -/
def zeroGraphState : Lila.GraphState where
  personas :=
    [⟨"zoe", some "Zoe", some 30, none, none, some "secure",
        some 0, some 0, some 0, some 0, some 0, some 0, none⟩,
     ⟨"kai", some "Kai", some 31, none, none, some "avoidant",
        some 0.4, some 0.4, some 0.4, some 0.4, some 0.4, some 0.2, none⟩]
  edges := [⟨"zoe", "kai", ⟨some 0, some 0, some 0, some 0, none, some 0, none, none, none⟩⟩]

/-- Iterate the fallback `record_interaction` tool `n` times, driving the
store through reachable states with ever more interactions. -/
def addInteractions : ℕ → SimpleLila.FallbackState → SimpleLila.FallbackState
  | 0, st => st
  | n + 1, st =>
      addInteractions n (SimpleLila.record_interaction st "lila" "don" "m" 0 0 n).2

/-- Length of the document list of a successful listing, 0 otherwise. -/
def okLength {α : Type} : Outcome (List α) → ℕ
  | .ok l => l.length
  | _ => 0

/-- Metric triple reported by a successful graph-server update document. -/
def Lila.updateDocMetrics : Outcome Lila.UpdateDoc → Option (ℚ × ℚ × ℚ)
  | .ok d => some (d.trust_level, d.intimacy_level, d.relationship_strength)
  | _ => none

/-- Metric triple reported by a successful fallback update document. -/
def SimpleLila.updateDocMetrics : Outcome SimpleLila.FUpdateDoc → Option (ℚ × ℚ × ℚ)
  | .ok d => some (d.trust_level, d.intimacy_level, d.relationship_strength)
  | _ => none

/-- The `trust_level` reported by a successful relationship read. -/
def Lila.relDocTrust : Outcome Lila.RelDoc → Option ℚ
  | .ok d => some d.trust_level
  | _ => none

/-- The persona-level `trust_level` reported by a successful persona read. -/
def Lila.personaDocTrust : Outcome Lila.PersonaFullDoc → Option ℚ
  | .ok d => some d.trust_level
  | _ => none

/-- The `emotional_valence` stored on the (first) relationship edge between
two personas, when one exists. -/
def Lila.valenceOf (st : Lila.GraphState) (a b : String) : Option (Option ℚ) :=
  (st.edges.find? (Lila.edgeMatches a b)).map (fun e => e.rel.emotional_valence)

theorem clamp_eq_ite (y : ℚ) :
    (if y > 10 then (10 : ℚ) else if y < 0 then 0 else y) = clamp y := by
  unfold clamp pyMax pyMin
  split_ifs <;> linarith

theorem cypherClamp_some (x d : ℚ) :
    Lila.cypherClamp (some x) d = some (clamp (x + d)) := by
  unfold Lila.cypherClamp
  rw [Option.map_some']
  exact congrArg some (clamp_eq_ite (x + d))

theorem clamp_mem (x : ℚ) : 0 ≤ clamp x ∧ clamp x ≤ 10 := by
  unfold clamp pyMax pyMin
  split_ifs <;> constructor <;> linarith

theorem find?_map_ite {α : Type} (p : α → Bool) (f : α → α)
    (hp : ∀ a, p a = true → p (f a) = true) :
    ∀ l : List α, (l.map fun a => if p a then f a else a).find? p = (l.find? p).map f
  | [] => by simp
  | a :: l => by
    by_cases h : p a = true
    · simp [List.find?_cons, h, hp a h]
    · have h' : p a = false := by simpa using h
      simp [List.find?_cons, h', find?_map_ite p f hp l]

theorem dget_dset_same {α β : Type} [DecidableEq α] (k : α) (v : β) :
    ∀ m : List (α × β), dget (dset m k v) k = some v
  | [] => by simp [dget, dset]
  | e :: m => by
    by_cases h : e.1 = k
    · simp [dget, dset, h]
    · simp [dget, dset, h, dget_dset_same k v m]

theorem dget_dset_ne {α β : Type} [DecidableEq α] (k k' : α) (v : β) (hne : k' ≠ k) :
    ∀ m : List (α × β), dget (dset m k v) k' = dget m k'
  | [] => by simp [dget, dset, Ne.symm hne]
  | e :: m => by
    by_cases h : e.1 = k
    · simp [dget, dset, h, Ne.symm hne]
    · simp [dget, dset, h, dget_dset_ne k k' v hne m]

theorem edgeMatches_set_rel (a b : String) (x : Lila.GraphEdge) (r : Lila.GraphRel) :
    Lila.edgeMatches a b { x with rel := r } = Lila.edgeMatches a b x := rfl

theorem graph_update_state (st : Lila.GraphState) (a b : String) (dt di ds : ℚ)
    (now : ℕ) (e : Lila.GraphEdge) (t i s : ℚ)
    (hfind : st.edges.find? (Lila.edgeMatches a b) = some e)
    (ht : e.rel.trust_level = some t)
    (hi : e.rel.intimacy_level = some i)
    (hs : e.rel.relationship_strength = some s) :
    (Lila.update_relationship_metrics st a b dt di ds now).2.edges.find?
        (Lila.edgeMatches a b) =
      some { e with rel := { e.rel with
        trust_level := some (clamp (t + dt)),
        intimacy_level := some (clamp (i + di)),
        relationship_strength := some (clamp (s + ds)),
        updated_at := some now } } := by
  have hpres : ∀ x : Lila.GraphEdge, Lila.edgeMatches a b x = true →
      Lila.edgeMatches a b { x with rel := Lila.applyMetricDeltas x.rel dt di ds now } =
        true := fun x hx => hx
  have hmap := find?_map_ite (Lila.edgeMatches a b)
    (fun x => { x with rel := Lila.applyMetricDeltas x.rel dt di ds now }) hpres st.edges
  have hrel : Lila.applyMetricDeltas e.rel dt di ds now =
      { e.rel with
        trust_level := some (clamp (t + dt)),
        intimacy_level := some (clamp (i + di)),
        relationship_strength := some (clamp (s + ds)),
        updated_at := some now } := by
    simp [Lila.applyMetricDeltas, ht, hi, hs, cypherClamp_some]
  simp only [Lila.update_relationship_metrics, hfind, hrel]
  simp only [hmap, hfind, Option.map_some', hrel]

theorem graph_update_doc (st : Lila.GraphState) (a b : String) (dt di ds : ℚ)
    (now : ℕ) (e : Lila.GraphEdge) (t i s : ℚ)
    (hfind : st.edges.find? (Lila.edgeMatches a b) = some e)
    (ht : e.rel.trust_level = some t)
    (hi : e.rel.intimacy_level = some i)
    (hs : e.rel.relationship_strength = some s) :
    Lila.updateDocMetrics (Lila.update_relationship_metrics st a b dt di ds now).1 =
      some (clamp (t + dt), clamp (i + di), clamp (s + ds)) := by
  have hrel : Lila.applyMetricDeltas e.rel dt di ds now =
      { e.rel with
        trust_level := some (clamp (t + dt)),
        intimacy_level := some (clamp (i + di)),
        relationship_strength := some (clamp (s + ds)),
        updated_at := some now } := by
    simp [Lila.applyMetricDeltas, ht, hi, hs, cypherClamp_some]
  simp only [Lila.update_relationship_metrics, hfind, hrel]
  simp [Lila.updateDocMetrics]

theorem fallback_update_doc (fst : SimpleLila.FallbackState) (a b : String)
    (dt di ds : ℚ) (now : ℕ) (m : SimpleLila.MockRel)
    (hm : dget fst.mock_relationships (a, b) = some m) :
    SimpleLila.updateDocMetrics
        (SimpleLila.update_relationship_metrics fst a b dt di ds now).1 =
      some (clamp (m.trust_level + dt), clamp (m.intimacy_level + di),
        clamp (m.relationship_strength + ds)) := by
  simp only [SimpleLila.update_relationship_metrics, hm]
  simp [SimpleLila.updateDocMetrics]

theorem fallback_update_state (fst : SimpleLila.FallbackState) (a b : String)
    (dt di ds : ℚ) (now : ℕ) (m : SimpleLila.MockRel)
    (hm : dget fst.mock_relationships (a, b) = some m) :
    dget (SimpleLila.update_relationship_metrics fst a b dt di ds now).2.mock_relationships
        (a, b) =
      some ⟨clamp (m.trust_level + dt), clamp (m.intimacy_level + di),
        clamp (m.relationship_strength + ds), some now⟩ := by
  simp only [SimpleLila.update_relationship_metrics, hm]
  simp [dget_dset_same]

/-- C1: for every relationship and every triple of deltas, the
`update_relationship_metrics` tool sets each of the three metrics
independently to `clamp(before + delta, 0.0, 10.0)` — in post-state and in
the reported document, in both the graph-backed and the fallback store —
and the clamp result always lies within `[0.0, 10.0]` regardless of the
delta's magnitude or sign. -/
theorem c1_update_metrics_clamps
    (st : Lila.GraphState) (a b : String) (dt di ds : ℚ) (now : ℕ)
    (e : Lila.GraphEdge) (t i s : ℚ)
    (hfind : st.edges.find? (Lila.edgeMatches a b) = some e)
    (ht : e.rel.trust_level = some t)
    (hi : e.rel.intimacy_level = some i)
    (hs : e.rel.relationship_strength = some s)
    (fst : SimpleLila.FallbackState) (m : SimpleLila.MockRel)
    (hm : dget fst.mock_relationships (a, b) = some m) :
    ((Lila.update_relationship_metrics st a b dt di ds now).2.edges.find?
        (Lila.edgeMatches a b) =
      some { e with rel := { e.rel with
        trust_level := some (clamp (t + dt))
        intimacy_level := some (clamp (i + di))
        relationship_strength := some (clamp (s + ds))
        updated_at := some now } }) ∧
    Lila.updateDocMetrics (Lila.update_relationship_metrics st a b dt di ds now).1 =
      some (clamp (t + dt), clamp (i + di), clamp (s + ds)) ∧
    SimpleLila.updateDocMetrics
        (SimpleLila.update_relationship_metrics fst a b dt di ds now).1 =
      some (clamp (m.trust_level + dt), clamp (m.intimacy_level + di),
        clamp (m.relationship_strength + ds)) ∧
    dget (SimpleLila.update_relationship_metrics fst a b dt di ds now).2.mock_relationships
        (a, b) =
      some ⟨clamp (m.trust_level + dt), clamp (m.intimacy_level + di),
        clamp (m.relationship_strength + ds), some now⟩ ∧
    (∀ x : ℚ, 0 ≤ clamp x ∧ clamp x ≤ 10) := by
  exact ⟨graph_update_state st a b dt di ds now e t i s hfind ht hi hs,
    graph_update_doc st a b dt di ds now e t i s hfind ht hi hs,
    fallback_update_doc fst a b dt di ds now m hm,
    fallback_update_state fst a b dt di ds now m hm,
    clamp_mem⟩

/-- Witness for `c1_update_metrics_clamps` at the demo states: deltas
`(+2, -10, +100)` applied to the seeded `(lila, don)` relationship
`(7.5, 6.8, 7.2)` in both backends. -/
theorem c1_update_metrics_clamps_witness :
    Lila.updateDocMetrics
        (Lila.update_relationship_metrics exGraphState "lila" "don" 2 (-10) 100 7).1 =
      some (clamp (7.5 + 2), clamp (6.8 + -10), clamp (7.2 + 100)) ∧
    SimpleLila.updateDocMetrics
        (SimpleLila.update_relationship_metrics SimpleLila.initState "lila" "don"
          2 (-10) 100 7).1 =
      some (clamp (7.5 + 2), clamp (6.8 + -10), clamp (7.2 + 100)) :=
  ⟨(c1_update_metrics_clamps exGraphState "lila" "don" 2 (-10) 100 7 _ 7.5 6.8 7.2
      rfl rfl rfl rfl SimpleLila.initState ⟨7.5, 6.8, 7.2, some 0⟩ rfl).2.1,
   (c1_update_metrics_clamps exGraphState "lila" "don" 2 (-10) 100 7 _ 7.5 6.8 7.2
      rfl rfl rfl rfl SimpleLila.initState ⟨7.5, 6.8, 7.2, some 0⟩ rfl).2.2.1⟩

theorem graph_record_state (st : Lila.GraphState) (sender recipient content : String)
    (ev ri : ℚ) (now : ℕ) (e : Lila.GraphEdge)
    (hfind : st.edges.find? (Lila.edgeMatches sender recipient) = some e) :
    (Lila.record_interaction st sender recipient content ev ri now).2.edges.find?
        (Lila.edgeMatches sender recipient) =
      some { e with rel := { e.rel with
        last_interaction := some now,
        interaction_count := some (e.rel.interaction_count.getD 0 + 1),
        emotional_valence := some ((ev + e.rel.emotional_valence.getD 0) / 2) } } := by
  have hpres : ∀ x : Lila.GraphEdge, Lila.edgeMatches sender recipient x = true →
      Lila.edgeMatches sender recipient
        { x with rel := Lila.applyInteraction x.rel ev now } = true := fun x hx => hx
  have hmap := find?_map_ite (Lila.edgeMatches sender recipient)
    (fun x => { x with rel := Lila.applyInteraction x.rel ev now }) hpres st.edges
  simp only [Lila.record_interaction, hmap, hfind, Option.map_some']
  simp [Lila.applyInteraction]

/-- C2 counterexample: the fallback store's seeded `(lila, don)`
relationship exists, yet the fallback `record_interaction` tool leaves
`mock_relationships` completely unchanged — it neither increments any
interaction count nor blends any valence (fallback relationship records do
not even carry those fields), contradicting the claim for the fallback
implementation it cites. -/
theorem c2_record_interaction_counterexample :
    dget SimpleLila.initState.mock_relationships ("lila", "don") =
      some ⟨7.5, 6.8, 7.2, some 0⟩ ∧
    (SimpleLila.record_interaction SimpleLila.initState "lila" "don" "hello" 1 0
        5).2.mock_relationships =
      SimpleLila.initState.mock_relationships :=
  ⟨rfl, rfl⟩

/-- C2 (amended): in the graph-backed store, for every pair of personas
with an existing relationship, `record_interaction` increments the
relationship's `interaction_count` by exactly 1 (a missing count is read
as 0), sets `last_interaction` to the current time, and sets
`emotional_valence` to `(argument + previous) / 2` where the previous
valence defaults to 0.0; concretely, starting from valence 0.0, recording
valence 1.0 yields 0.5 and recording valence 1.0 again yields 0.75.  The
fallback `record_interaction` instead leaves every relationship record
unchanged and only prepends the new interaction record to
`mock_interactions`. -/
theorem c2_record_interaction_amended :
    (∀ (st : Lila.GraphState) (sender recipient content : String) (ev ri : ℚ)
      (now : ℕ) (e : Lila.GraphEdge),
      st.edges.find? (Lila.edgeMatches sender recipient) = some e →
      (Lila.record_interaction st sender recipient content ev ri now).2.edges.find?
          (Lila.edgeMatches sender recipient) =
        some { e with rel := { e.rel with
          last_interaction := some now,
          interaction_count := some (e.rel.interaction_count.getD 0 + 1),
          emotional_valence := some ((ev + e.rel.emotional_valence.getD 0) / 2) } }) ∧
    Lila.valenceOf (Lila.record_interaction exGraphState "lila" "don" "hi" 1 0 5).2
        "lila" "don" = some (some (1 / 2)) ∧
    Lila.valenceOf
        (Lila.record_interaction
          (Lila.record_interaction exGraphState "lila" "don" "hi" 1 0 5).2
          "don" "lila" "again" 1 0 6).2 "lila" "don" = some (some (3 / 4)) ∧
    (∀ (fst : SimpleLila.FallbackState) (sender recipient content : String)
      (ev ri : ℚ) (now : ℕ),
      (SimpleLila.record_interaction fst sender recipient content ev ri
          now).2.mock_relationships = fst.mock_relationships ∧
      (SimpleLila.record_interaction fst sender recipient content ev ri
          now).2.mock_interactions =
        SimpleLila.new_interaction fst sender recipient content ev ri now
          :: fst.mock_interactions) := by
  refine ⟨fun st sender recipient content ev ri now e hfind =>
      graph_record_state st sender recipient content ev ri now e hfind, ?_, ?_,
      fun fst sender recipient content ev ri now => ⟨rfl, rfl⟩⟩
  · norm_num [Lila.valenceOf, Lila.record_interaction, exGraphState,
      Lila.applyInteraction, Lila.edgeMatches]
  · norm_num [Lila.valenceOf, Lila.record_interaction, exGraphState,
      Lila.applyInteraction, Lila.edgeMatches]

/-- Witness for `c2_record_interaction_amended` on the demo graph state:
recording valence 1.0 on the seeded `(lila, don)` relationship (count 3,
valence 0.0) at instant 9. -/
theorem c2_record_interaction_amended_witness :
    (Lila.record_interaction exGraphState "lila" "don" "hello" 1 0 9).2.edges.find?
        (Lila.edgeMatches "lila" "don") =
      some ⟨"lila", "don",
        ⟨some 7.5, some 6.8, some 7.2, some (3 + 1), some "romantic",
          some ((1 + 0) / 2), some 9, some 1, some 1⟩⟩ :=
  c2_record_interaction_amended.1 exGraphState "lila" "don" "hello" 1 0 9 _ rfl

/-- C3 counterexample: with both stores holding the same two personas
(lila, don) and the same — empty — relationship and interaction sets, the
tool `update_relationship_metrics("lila", "don", +1, 0, 0)` returns a
not-found error document on the graph backend but a success document
(metrics 6.0/5.0/5.0, freshly created relationship) on the fallback
backend, so the two implementations do not behave identically on equal
states. -/
theorem c3_dual_backend_counterexample :
    (Lila.update_relationship_metrics emptyRelGraphState "lila" "don" 1 0 0 7).1 =
      .errorDoc "No relationship found between lila and don" ∧
    (Lila.update_relationship_metrics emptyRelGraphState "lila" "don" 1 0 0 7).2 =
      emptyRelGraphState ∧
    SimpleLila.updateDocMetrics
        (SimpleLila.update_relationship_metrics emptyRelFallbackState "lila" "don"
          1 0 0 7).1 = some (6, 5, 5) ∧
    Lila.updateDocMetrics
        (Lila.update_relationship_metrics emptyRelGraphState "lila" "don" 1 0 0 7).1 =
      none := by
  refine ⟨rfl, rfl, ?_, rfl⟩
  norm_num [SimpleLila.update_relationship_metrics, SimpleLila.updateDocMetrics,
    emptyRelFallbackState, dget, dset, clamp, pyMin, pyMax]

/-- C3 (amended): the dual-backend agreement holds for the metric-update
arithmetic on an existing relationship — when both stores hold a
relationship between the same two personas with the same three metric
values, `update_relationship_metrics` reports the same success triple
`clamp(before + delta)` on both backends — but the claim of identical
behaviour over the whole surface is false: the backends diverge on missing
relationships (see the counterexample), on `record_interaction`, on
compatibility analysis and on strategy selection. -/
theorem c3_dual_backend_amended
    (gst : Lila.GraphState) (fst : SimpleLila.FallbackState) (a b : String)
    (dt di ds : ℚ) (now : ℕ) (e : Lila.GraphEdge) (m : SimpleLila.MockRel)
    (hfind : gst.edges.find? (Lila.edgeMatches a b) = some e)
    (ht : e.rel.trust_level = some m.trust_level)
    (hi : e.rel.intimacy_level = some m.intimacy_level)
    (hs : e.rel.relationship_strength = some m.relationship_strength)
    (hm : dget fst.mock_relationships (a, b) = some m) :
    Lila.updateDocMetrics (Lila.update_relationship_metrics gst a b dt di ds now).1 =
      SimpleLila.updateDocMetrics
        (SimpleLila.update_relationship_metrics fst a b dt di ds now).1 ∧
    Lila.updateDocMetrics (Lila.update_relationship_metrics gst a b dt di ds now).1 =
      some (clamp (m.trust_level + dt), clamp (m.intimacy_level + di),
        clamp (m.relationship_strength + ds)) := by
  have hg := graph_update_doc gst a b dt di ds now e m.trust_level m.intimacy_level
    m.relationship_strength hfind ht hi hs
  have hf := fallback_update_doc fst a b dt di ds now m hm
  exact ⟨hg.trans hf.symm, hg⟩

/-- Witness for `c3_dual_backend_amended`: the seeded `(lila, don)`
relationship `(7.5, 6.8, 7.2)` present in both demo stores, with deltas
`(+1, -1, +2)`. -/
theorem c3_dual_backend_amended_witness :
    Lila.updateDocMetrics
        (Lila.update_relationship_metrics exGraphState "lila" "don" 1 (-1) 2 7).1 =
      SimpleLila.updateDocMetrics
        (SimpleLila.update_relationship_metrics SimpleLila.initState "lila" "don"
          1 (-1) 2 7).1 :=
  (c3_dual_backend_amended exGraphState SimpleLila.initState "lila" "don" 1 (-1) 2 7
    _ ⟨7.5, 6.8, 7.2, some 0⟩ rfl rfl rfl rfl rfl).1

/-- C4 counterexample: the fallback server's `interactions/recent/{count}`
resource has no `try/except`; `int("abc")` raises a `ValueError` that
escapes the handler instead of being converted to an `{"error": ...}`
document. -/
theorem c4_error_handling_counterexample :
    SimpleLila.get_recent_interactions SimpleLila.initState "abc" =
      .raised "ValueError: invalid literal for int with base 10" := rfl

/-- C4 (amended): every graph-server resource/tool converts internal
failures into a structured error document and never lets an exception
escape; in the fallback server the mutating tools cannot raise either, but
the recent-interactions resource propagates the count-conversion
`ValueError` to the caller whenever the count string is not a valid
integer literal, and raises in no other case. -/
theorem c4_error_handling_amended :
    (∀ (st : Lila.GraphState) (count : String) (now : ℕ) (msg : String),
      Lila.get_recent_interactions st count now ≠ .raised msg) ∧
    (∀ (st : Lila.GraphState) (a b : String) (dt di ds : ℚ) (now : ℕ) (msg : String),
      (Lila.update_relationship_metrics st a b dt di ds now).1 ≠ .raised msg) ∧
    (∀ (st : Lila.GraphState) (sender recipient content : String) (ev ri : ℚ)
      (now : ℕ) (msg : String),
      (Lila.record_interaction st sender recipient content ev ri now).1 ≠ .raised msg) ∧
    (∀ (st : Lila.GraphState) (p1 p2 rt msg : String),
      Lila.analyze_persona_compatibility st p1 p2 rt ≠ .raised msg) ∧
    (∀ (pid ctx sit goals style msg : String),
      Lila.autonomous_strategy_selection pid ctx sit goals style ≠ .raised msg) ∧
    (∀ (st : Lila.GraphState) (p1 p2 msg : String),
      Lila.get_relationship_by_personas st p1 p2 ≠ .raised msg) ∧
    (∀ (st : Lila.GraphState) (pid msg : String),
      Lila.get_persona_by_id st pid ≠ .raised msg) ∧
    (∀ (st : Lila.GraphState) (msg : String),
      Lila.get_all_personas st ≠ .raised msg) ∧
    (∀ (fst : SimpleLila.FallbackState) (count : String),
      pyInt count = none →
      SimpleLila.get_recent_interactions fst count =
        .raised "ValueError: invalid literal for int with base 10") ∧
    (∀ (fst : SimpleLila.FallbackState) (count : String) (k : ℤ),
      pyInt count = some k →
      ∀ msg : String, SimpleLila.get_recent_interactions fst count ≠ .raised msg) := by
  refine ⟨?_, ?_, ?_, ?_, ?_, ?_, ?_, ?_, ?_, ?_⟩
  · intro st count now msg
    rcases hp : pyInt count with _ | k <;>
      simp [Lila.get_recent_interactions, hp]
    split <;> simp
  · intro st a b dt di ds now msg
    unfold Lila.update_relationship_metrics
    rcases hf : st.edges.find? (Lila.edgeMatches a b) with _ | e <;> simp only [hf] <;>
      try simp
    rcases (Lila.applyMetricDeltas e.rel dt di ds now).trust_level with _ | t <;>
      rcases (Lila.applyMetricDeltas e.rel dt di ds now).intimacy_level with _ | i <;>
      rcases (Lila.applyMetricDeltas e.rel dt di ds now).relationship_strength with _ | s <;>
      simp
  · intro st sender recipient content ev ri now msg
    simp [Lila.record_interaction]
  · intro st p1 p2 rt msg
    unfold Lila.analyze_persona_compatibility
    split <;> simp
  · intro pid ctx sit goals style msg
    simp [Lila.autonomous_strategy_selection]
  · intro st p1 p2 msg
    unfold Lila.get_relationship_by_personas
    rcases st.edges.find? (Lila.edgeMatches p1 p2) with _ | e <;> simp
  · intro st pid msg
    unfold Lila.get_persona_by_id
    split <;> simp
  · intro st msg
    simp [Lila.get_all_personas]
  · intro fst count h
    simp [SimpleLila.get_recent_interactions, h]
  · intro fst count k h msg
    simp [SimpleLila.get_recent_interactions, h]

/-- Witness for `c4_error_handling_amended`: the malformed count "abc"
raises out of the fallback recent-interactions resource. -/
theorem c4_error_handling_amended_witness :
    SimpleLila.get_recent_interactions emptyRelFallbackState "abc" =
      .raised "ValueError: invalid literal for int with base 10" :=
  c4_error_handling_amended.2.2.2.2.2.2.2.2.1 emptyRelFallbackState "abc" rfl

/-- C5 counterexample: after 50 recorded interactions the fallback store
holds 51 interaction records, and `interactions/recent/51` returns all 51
of them — exceeding `min(count, 50) = 50`, because the fallback resource
caps at the stored count only, never at 50. -/
theorem c5_recent_cap_counterexample :
    okLength (SimpleLila.get_recent_interactions
      (addInteractions 50 SimpleLila.initState) "51") = 51 ∧
    ¬ ((okLength (SimpleLila.get_recent_interactions
      (addInteractions 50 SimpleLila.initState) "51") : ℤ) ≤ min 51 50) :=
  ⟨by decide, by decide⟩

/-- C5 (amended): the graph-backed resource returns at most
`min(count, 50)` items, most-recent-first (rows sorted by `updated_at`
descending); the fallback resource returns the first
`min(count, stored-count)` stored interactions — a prefix of
`mock_interactions`, which `record_interaction` maintains newest-first —
so it honours the `count` bound but has no cap at 50. -/
theorem c5_recent_interactions_amended :
    (∀ (st : Lila.GraphState) (count : String) (now : ℕ) (k : ℤ),
      pyInt count = some k → 0 ≤ k →
      Lila.get_recent_interactions st count now =
        .ok (((Lila.recentRows st).take (Int.toNat (min k 50))).map
          (Lila.rowDoc st now))) ∧
    (∀ (st : Lila.GraphState) (count : String) (now : ℕ) (k : ℤ)
      (l : List Lila.InteractionRowDoc),
      pyInt count = some k →
      Lila.get_recent_interactions st count now = .ok l →
      (l.length : ℤ) ≤ min k 50) ∧
    (∀ (st : Lila.GraphState) (n : ℕ),
      List.Sorted Lila.rowDesc ((Lila.recentRows st).take n)) ∧
    (∀ (fst : SimpleLila.FallbackState) (count : String) (k : ℤ),
      pyInt count = some k → 0 ≤ k →
      SimpleLila.get_recent_interactions fst count =
        .ok (fst.mock_interactions.take
          (Int.toNat (min k (fst.mock_interactions.length : ℤ))))) ∧
    (∀ (fst : SimpleLila.FallbackState) (count : String) (k : ℤ)
      (l : List SimpleLila.MockInteraction),
      pyInt count = some k →
      SimpleLila.get_recent_interactions fst count = .ok l →
      l.length ≤ fst.mock_interactions.length ∧
      (0 ≤ k → (l.length : ℤ) ≤ k) ∧
      l <+: fst.mock_interactions) ∧
    (∀ (fst : SimpleLila.FallbackState) (sender recipient content : String)
      (ev ri : ℚ) (now : ℕ),
      (SimpleLila.record_interaction fst sender recipient content ev ri
          now).2.mock_interactions =
        SimpleLila.new_interaction fst sender recipient content ev ri now
          :: fst.mock_interactions) := by
  refine ⟨?_, ?_, ?_, ?_, ?_, fun fst sender recipient content ev ri now => rfl⟩
  · intro st count now k hp hk
    unfold Lila.get_recent_interactions
    rw [hp]
    dsimp only
    rw [if_neg (by omega)]
  · intro st count now k l hp hok
    unfold Lila.get_recent_interactions at hok
    rw [hp] at hok
    dsimp only at hok
    by_cases hneg : (min k 50 : ℤ) < 0
    · rw [if_pos hneg] at hok
      cases hok
    · rw [if_neg hneg] at hok
      rw [Outcome.ok.injEq] at hok
      subst hok
      simp only [List.length_map, List.length_take]
      omega
  · intro st n
    exact List.Pairwise.sublist (List.take_sublist n _)
      (List.sorted_insertionSort Lila.rowDesc _)
  · intro fst count k hp hk
    unfold SimpleLila.get_recent_interactions
    rw [hp]
    dsimp only
    unfold pySliceTo
    rw [if_neg (by omega)]
  · intro fst count k l hp hok
    unfold SimpleLila.get_recent_interactions at hok
    rw [hp] at hok
    dsimp only at hok
    rw [Outcome.ok.injEq] at hok
    subst hok
    refine ⟨?_, ?_, ?_⟩
    · unfold pySliceTo
      split <;> (simp only [List.length_take]; omega)
    · intro hk
      unfold pySliceTo
      split <;> (simp only [List.length_take]; omega)
    · unfold pySliceTo
      split <;> exact List.take_prefix _ _

/-- Witness for `c5_recent_interactions_amended`: count "5" against the
demo graph state and the seeded fallback store. -/
theorem c5_recent_interactions_amended_witness :
    Lila.get_recent_interactions exGraphState "5" 9 =
      .ok (((Lila.recentRows exGraphState).take (Int.toNat (min 5 50))).map
        (Lila.rowDoc exGraphState 9)) ∧
    SimpleLila.get_recent_interactions SimpleLila.initState "5" =
      .ok (SimpleLila.initState.mock_interactions.take
        (Int.toNat (min 5 (SimpleLila.initState.mock_interactions.length : ℤ)))) :=
  ⟨c5_recent_interactions_amended.1 exGraphState "5" 9 5 rfl (by decide),
   c5_recent_interactions_amended.2.2.2.1 SimpleLila.initState "5" 5 rfl (by decide)⟩

/-- C6: compatibility lookup returns the fixed table value for the
unordered pair on each of the six defined pairs, trying both orderings,
otherwise falls back to the Unknown tuple, and is therefore symmetric in
its two arguments. -/
theorem c6_compatibility_table :
    (∀ a b : String, Lila.compatibility a b = Lila.compatibility b a) ∧
    Lila.compatibility "secure" "secure" =
      ("High", "Both partners provide stability and emotional availability") ∧
    Lila.compatibility "secure" "anxious" =
      ("Good", "Secure partner can provide reassurance to anxious partner") ∧
    Lila.compatibility "anxious" "secure" =
      ("Good", "Secure partner can provide reassurance to anxious partner") ∧
    Lila.compatibility "secure" "avoidant" =
      ("Moderate", "Secure partner may help avoidant partner open up gradually") ∧
    Lila.compatibility "avoidant" "secure" =
      ("Moderate", "Secure partner may help avoidant partner open up gradually") ∧
    Lila.compatibility "anxious" "anxious" =
      ("Challenging", "Both partners may escalate emotional intensity") ∧
    Lila.compatibility "anxious" "avoidant" =
      ("Difficult", "Classic pursue-withdraw dynamic may develop") ∧
    Lila.compatibility "avoidant" "anxious" =
      ("Difficult", "Classic pursue-withdraw dynamic may develop") ∧
    Lila.compatibility "avoidant" "avoidant" =
      ("Low", "Both partners may avoid emotional intimacy") ∧
    (∀ a b : String,
      Lila.compatibility_matrix a b = none → Lila.compatibility_matrix b a = none →
      Lila.compatibility a b =
        ("Unknown", "Attachment style combination not recognized")) := by
  refine ⟨?_, by decide, by decide, by decide, by decide, by decide, by decide,
    by decide, by decide, by decide, ?_⟩
  · intro a b
    by_cases ha1 : a = "secure" <;> by_cases ha2 : a = "anxious" <;>
      by_cases ha3 : a = "avoidant" <;> by_cases hb1 : b = "secure" <;>
      by_cases hb2 : b = "anxious" <;> by_cases hb3 : b = "avoidant" <;>
      simp_all [Lila.compatibility, Lila.compatibility_matrix]
  · intro a b h1 h2
    simp [Lila.compatibility, h1, h2]

/-- Witness for `c6_compatibility_table`: symmetry applied at the pair
`("anxious", "secure")` and the Unknown fallback at
`("exploratory", "exploratory")`, a pair outside the table. -/
theorem c6_compatibility_table_witness :
    Lila.compatibility "anxious" "secure" = Lila.compatibility "secure" "anxious" ∧
    Lila.compatibility "exploratory" "exploratory" =
      ("Unknown", "Attachment style combination not recognized") :=
  ⟨c6_compatibility_table.1 "anxious" "secure",
   c6_compatibility_table.2.2.2.2.2.2.2.2.2.2 "exploratory" "exploratory" rfl rfl⟩

/-- C7 counterexample: the fallback server's `autonomous_strategy_selection`
(also cited by the claim) implements none of the five rules: for the
secure persona "lila" with empty context and goals it returns
"balanced_connection", not the first entry "emotional_bonding" of the
secure candidate list that rule 5 of the claim requires. -/
theorem c7_strategy_selection_counterexample :
    SimpleLila.autonomous_strategy_selection SimpleLila.initState "lila" "" "" "" =
      .ok ⟨"balanced_connection", 0.85, "secure"⟩ ∧
    (Lila.available_strategies "secure").headD "" = "emotional_bonding" ∧
    ("balanced_connection" : String) ≠ "emotional_bonding" :=
  ⟨rfl, by decide, by decide⟩

/-- C7 (amended): the graph server's strategy selection follows the
five-rule precedence exactly as claimed (top to bottom, first match wins,
case-insensitive substring matching), with the three claimed examples; the
fallback server's tool instead ignores context and goals entirely,
returning "balanced_connection" for a secure persona and
"reassurance_seeking" for any other attachment style. -/
theorem c7_strategy_selection_amended :
    (∀ ctx goals style : String,
      (pyIn "first" (pyLower ctx) || pyIn "new" (pyLower ctx)) = true →
      Lila.selected_strategy ctx goals style =
        if style = "anxious" then "reassurance_seeking"
        else if style = "avoidant" then "thoughtful_presence"
        else "emotional_bonding") ∧
    (∀ ctx goals style : String,
      (pyIn "first" (pyLower ctx) || pyIn "new" (pyLower ctx)) = false →
      (pyIn "deep" (pyLower ctx) || pyIn "intimate" (pyLower ctx)) = true →
      Lila.selected_strategy ctx goals style =
        if style = "avoidant" then "gradual_opening" else "vulnerable_disclosure") ∧
    (∀ ctx goals style : String,
      (pyIn "first" (pyLower ctx) || pyIn "new" (pyLower ctx)) = false →
      (pyIn "deep" (pyLower ctx) || pyIn "intimate" (pyLower ctx)) = false →
      pyIn "trust" (pyLower goals) = true →
      Lila.selected_strategy ctx goals style = "trust_building") ∧
    (∀ ctx goals style : String,
      (pyIn "first" (pyLower ctx) || pyIn "new" (pyLower ctx)) = false →
      (pyIn "deep" (pyLower ctx) || pyIn "intimate" (pyLower ctx)) = false →
      pyIn "trust" (pyLower goals) = false →
      pyIn "vulnerability" (pyLower goals) = true →
      Lila.selected_strategy ctx goals style = "vulnerable_disclosure") ∧
    (∀ ctx goals style : String,
      (pyIn "first" (pyLower ctx) || pyIn "new" (pyLower ctx)) = false →
      (pyIn "deep" (pyLower ctx) || pyIn "intimate" (pyLower ctx)) = false →
      pyIn "trust" (pyLower goals) = false →
      pyIn "vulnerability" (pyLower goals) = false →
      Lila.selected_strategy ctx goals style =
        (Lila.available_strategies style).headD "") ∧
    Lila.selected_strategy "This is our first meeting" "" "anxious" =
      "reassurance_seeking" ∧
    Lila.selected_strategy "Let\x27s go deeper" "" "avoidant" = "gradual_opening" ∧
    Lila.selected_strategy "" "" "secure" = "emotional_bonding" ∧
    (∀ (fst : SimpleLila.FallbackState) (pid ctx goals cons : String)
      (p : SimpleLila.MockPersona),
      dget fst.mock_personas pid = some p →
      SimpleLila.autonomous_strategy_selection fst pid ctx goals cons =
        if p.attachment_style = "secure" then
          .ok ⟨"balanced_connection", 0.85, p.attachment_style⟩
        else .ok ⟨"reassurance_seeking", 0.78, p.attachment_style⟩) := by
  refine ⟨?_, ?_, ?_, ?_, ?_, by decide, by decide, by decide, ?_⟩
  · intro ctx goals style h
    simp [Lila.selected_strategy, h]
  · intro ctx goals style h1 h2
    simp only [Lila.selected_strategy, h1, h2]
    split <;> simp_all
  · intro ctx goals style h1 h2 h3
    simp [Lila.selected_strategy, h1, h2, h3]
  · intro ctx goals style h1 h2 h3 h4
    simp [Lila.selected_strategy, h1, h2, h3, h4]
  · intro ctx goals style h1 h2 h3 h4
    simp [Lila.selected_strategy, h1, h2, h3, h4]
  · intro fst pid ctx goals cons p hp
    unfold SimpleLila.autonomous_strategy_selection
    rw [hp]

/-- Witness for `c7_strategy_selection_amended`: rule 1 applied to the
context "a new day" with the avoidant style, and the fallback tool applied
to the anxious persona "don". -/
theorem c7_strategy_selection_amended_witness :
    Lila.selected_strategy "a new day" "" "avoidant" =
      (if ("avoidant" : String) = "anxious" then "reassurance_seeking"
       else if ("avoidant" : String) = "avoidant" then "thoughtful_presence"
       else "emotional_bonding") ∧
    SimpleLila.autonomous_strategy_selection SimpleLila.initState "don" "x" "y" "z" =
      (if ("anxious" : String) = "secure" then
        .ok ⟨"balanced_connection", 0.85, "anxious"⟩
       else .ok ⟨"reassurance_seeking", 0.78, "anxious"⟩) :=
  ⟨c7_strategy_selection_amended.1 "a new day" "" "avoidant" (by decide),
   c7_strategy_selection_amended.2.2.2.2.2.2.2.2 SimpleLila.initState "don" "x" "y" "z"
     ⟨"don", "Don", 45, "Software Developer", "anxious", ⟨0.7, 0.8, 0.4, 0.7, 0.6⟩⟩ rfl⟩

theorem clamp_nonpos {x : ℚ} (h : x ≤ 0) : clamp x = 0 := by
  unfold clamp pyMax pyMin
  split_ifs <;> linarith

/-- C8: when no relationship exists between the two personas, the
graph-backed `update_relationship_metrics` returns a not-found error
document and leaves the state unchanged, while the fallback store creates
a fresh default relationship (trust = intimacy = strength = 5.0) and
applies the deltas to it. -/
theorem c8_missing_relationship_asymmetry
    (gst : Lila.GraphState) (fst : SimpleLila.FallbackState) (a b : String)
    (dt di ds : ℚ) (now : ℕ)
    (hg : gst.edges.find? (Lila.edgeMatches a b) = none)
    (h1 : dget fst.mock_relationships (a, b) = none)
    (h2 : dget fst.mock_relationships (b, a) = none) :
    Lila.update_relationship_metrics gst a b dt di ds now =
      (.errorDoc ("No relationship found between " ++ a ++ " and " ++ b), gst) ∧
    SimpleLila.updateDocMetrics
        (SimpleLila.update_relationship_metrics fst a b dt di ds now).1 =
      some (clamp (5 + dt), clamp (5 + di), clamp (5 + ds)) ∧
    dget (SimpleLila.update_relationship_metrics fst a b dt di ds
        now).2.mock_relationships (a, b) =
      some ⟨clamp (5 + dt), clamp (5 + di), clamp (5 + ds), some now⟩ := by
  refine ⟨?_, ?_, ?_⟩
  · simp [Lila.update_relationship_metrics, hg]
  · simp only [SimpleLila.update_relationship_metrics, h1, h2]
    simp [SimpleLila.updateDocMetrics]
  · simp only [SimpleLila.update_relationship_metrics, h1, h2]
    simp [dget_dset_same]

/-- Witness for `c8_missing_relationship_asymmetry`: the two demo stores
with no relationship between lila and don, deltas `(+3, 0, 0)`. -/
theorem c8_missing_relationship_asymmetry_witness :
    Lila.update_relationship_metrics emptyRelGraphState "lila" "don" 3 0 0 7 =
      (.errorDoc ("No relationship found between " ++ "lila" ++ " and " ++ "don"),
        emptyRelGraphState) ∧
    SimpleLila.updateDocMetrics
        (SimpleLila.update_relationship_metrics emptyRelFallbackState "lila" "don"
          3 0 0 7).1 =
      some (clamp (5 + 3), clamp (5 + 0), clamp (5 + 0)) :=
  ⟨(c8_missing_relationship_asymmetry emptyRelGraphState emptyRelFallbackState
      "lila" "don" 3 0 0 7 rfl rfl rfl).1,
   (c8_missing_relationship_asymmetry emptyRelGraphState emptyRelFallbackState
      "lila" "don" 3 0 0 7 rfl rfl rfl).2.1⟩

/-- C9: fallback relationship lookup is order-independent — with a record
stored under `(a, b)` and nothing under `(b, a)`, both the relationship
resource and the metric-update tool called with `(b, a)` find and use the
`(a, b)` record (and the update modifies that record in place, creating no
`(b, a)` entry). -/
theorem c9_fallback_lookup_order_independent
    (fst : SimpleLila.FallbackState) (a b : String) (m : SimpleLila.MockRel)
    (hab : dget fst.mock_relationships (a, b) = some m)
    (hba : dget fst.mock_relationships (b, a) = none) :
    SimpleLila.get_relationship_by_personas fst b a =
      .ok ⟨b, a, m.trust_level, m.intimacy_level, m.relationship_strength,
        m.last_updated⟩ ∧
    (∀ (dt di ds : ℚ) (now : ℕ),
      dget (SimpleLila.update_relationship_metrics fst b a dt di ds
          now).2.mock_relationships (a, b) =
        some ⟨clamp (m.trust_level + dt), clamp (m.intimacy_level + di),
          clamp (m.relationship_strength + ds), some now⟩ ∧
      dget (SimpleLila.update_relationship_metrics fst b a dt di ds
          now).2.mock_relationships (b, a) = none) := by
  have hne : ((b, a) : String × String) ≠ (a, b) := by
    intro hEq
    rw [hEq, hab] at hba
    cases hba
  refine ⟨?_, ?_⟩
  · simp [SimpleLila.get_relationship_by_personas, hba, hab, Option.orElse]
  · intro dt di ds now
    constructor
    · simp only [SimpleLila.update_relationship_metrics, hba, hab]
      simp [dget_dset_same]
    · simp only [SimpleLila.update_relationship_metrics, hba, hab]
      rw [dget_dset_ne _ _ _ hne]
      exact hba

/-- Witness for `c9_fallback_lookup_order_independent`: the seeded
relationship is stored under `("lila", "don")` and queried as
`("don", "lila")`. -/
theorem c9_fallback_lookup_order_independent_witness :
    SimpleLila.get_relationship_by_personas SimpleLila.initState "don" "lila" =
      .ok ⟨"don", "lila", 7.5, 6.8, 7.2, some 0⟩ :=
  (c9_fallback_lookup_order_independent SimpleLila.initState "lila" "don"
    ⟨7.5, 6.8, 7.2, some 0⟩ rfl rfl).1

/-- C10: in the graph-backed read resources a stored 0.0 is reported as
the falsy-coalesced default — a personality scalar stored as 0.0 reads
back as 0.5, a persona-level trust stored as 0.0 reads back as 0.5, a
relationship `trust_level` stored as 0.0 reads back as 5.0 — and in
particular after `update_relationship_metrics` clamps `trust_level` to
exactly 0.0, the subsequent relationship read reports 5.0. -/
theorem c10_falsy_zero_reads_as_default :
    (∀ p : Lila.GraphPersona, p.openness = some 0 →
      (Lila.personaDoc p).openness = 0.5) ∧
    (∀ (st : Lila.GraphState) (pid : String) (p : Lila.GraphPersona),
      st.personas.find? (fun q => q.persona_id == pid) = some p →
      p.trust_level = some 0 →
      Lila.personaDocTrust (Lila.get_persona_by_id st pid) = some 0.5) ∧
    (∀ (st : Lila.GraphState) (a b : String) (e : Lila.GraphEdge),
      st.edges.find? (Lila.edgeMatches a b) = some e →
      e.rel.trust_level = some 0 →
      Lila.relDocTrust (Lila.get_relationship_by_personas st a b) = some 5) ∧
    (∀ (st : Lila.GraphState) (a b : String) (e : Lila.GraphEdge)
      (t i s dt di ds : ℚ) (now : ℕ),
      st.edges.find? (Lila.edgeMatches a b) = some e →
      e.rel.trust_level = some t →
      e.rel.intimacy_level = some i →
      e.rel.relationship_strength = some s →
      t + dt ≤ 0 →
      Lila.relDocTrust (Lila.get_relationship_by_personas
        (Lila.update_relationship_metrics st a b dt di ds now).2 a b) = some 5) := by
  refine ⟨?_, ?_, ?_, ?_⟩
  · intro p h
    simp [Lila.personaDoc, h, pyOrQ]
  · intro st pid p hfind h
    unfold Lila.get_persona_by_id
    rw [hfind]
    simp [Lila.personaDocTrust, pyOrQ, h]
  · intro st a b e hfind h
    unfold Lila.get_relationship_by_personas
    rw [hfind]
    simp [Lila.relDocTrust, pyOrQ, h]
  · intro st a b e t i s dt di ds now hfind ht hi hs hle
    have hpost := graph_update_state st a b dt di ds now e t i s hfind ht hi hs
    unfold Lila.get_relationship_by_personas
    rw [hpost]
    simp [Lila.relDocTrust, pyOrQ, clamp_nonpos hle]

/-- Witness for `c10_falsy_zero_reads_as_default`: the all-zero persona
"zoe" and the zero-metric relationship `(zoe, kai)`, plus the end-to-end
clamp-to-zero on the demo `(lila, don)` relationship with trust delta
`-9`. -/
theorem c10_falsy_zero_reads_as_default_witness :
    (Lila.personaDoc ⟨"zoe", some "Zoe", some 30, none, none, some "secure",
      some 0, some 0, some 0, some 0, some 0, some 0, none⟩).openness = 0.5 ∧
    Lila.personaDocTrust (Lila.get_persona_by_id zeroGraphState "zoe") = some 0.5 ∧
    Lila.relDocTrust (Lila.get_relationship_by_personas zeroGraphState "zoe" "kai") =
      some 5 ∧
    Lila.relDocTrust (Lila.get_relationship_by_personas
      (Lila.update_relationship_metrics exGraphState "lila" "don"
        (-9) 0 0 7).2 "lila" "don") = some 5 :=
  ⟨c10_falsy_zero_reads_as_default.1 _ rfl,
   c10_falsy_zero_reads_as_default.2.1 zeroGraphState "zoe" _ rfl rfl,
   c10_falsy_zero_reads_as_default.2.2.1 zeroGraphState "zoe" "kai" _ rfl rfl,
   c10_falsy_zero_reads_as_default.2.2.2 exGraphState "lila" "don" _
     7.5 6.8 7.2 (-9) 0 0 7 rfl rfl rfl rfl (by norm_num)⟩
